import Mathlib

/-!
Verification of the gostock Stock Level Ledger.

The development embeds the stock-adjustment core of the repository:

* `StockLevel` and `StockAdjustmentRequest` mirror the structs in
  internal/domain/stock_level.go.
* `AppError` mirrors the error taxonomy of internal/errors/errors.go.
* `UpdateStockLevel` embeds StockRepository.UpdateStockLevel (stockrepo).
  All claims are about a single (VariantID, WarehouseID) pair, and distinct
  pairs live in distinct rows, so the store is modelled as an
  `Option StockLevel` for that one pair.  The transaction reads the row
  with FOR UPDATE and later writes; a concurrent committed transaction can
  make the state at write time differ from the state at read time, so the
  embedding takes both: `readRow` is what the SELECT ... FOR UPDATE
  returned and `commitRow` is the stored row at the moment the
  INSERT / conditional UPDATE executes.  A sequential (uninterfered) call
  has `readRow = commitRow`.  `uuid.New()` is modelled by the `newID`
  parameter and the `time.Now()` calls of one invocation by the single
  `now` parameter.
* `AdjustStock` embeds Service.AdjustStock
  (internal/service/stockservice/service.go).  It takes the engine as a
  thunk, which makes the fact that a zero delta never invokes the engine
  expressible as a statement over every engine.
-/

/-- Mirror of domain.StockLevel (internal/domain/stock_level.go). -/
structure StockLevel where
  ID : String
  VariantID : String
  WarehouseID : String
  Quantity : Int
  Version : Int
  CreatedAt : Nat
  UpdatedAt : Nat
  deriving DecidableEq, Repr

/-- Mirror of domain.StockAdjustmentRequest (internal/domain/stock_level.go). -/
structure StockAdjustmentRequest where
  VariantID : String
  WarehouseID : String
  Delta : Int
  deriving DecidableEq, Repr

/-- Mirror of the error taxonomy of internal/errors/errors.go.
`NewDBError` builds an `internalError`, as in the Go source. -/
inductive AppError where
  | validationError (msg : String)
  | notFoundError (msg : String)
  | conflictError (msg : String)
  | internalError (msg : String)
  deriving DecidableEq, Repr

/-- `Category()` of internal/errors/errors.go. -/
def AppError.category : AppError → String
  | AppError.validationError _ => "VALIDATION_ERROR"
  | AppError.notFoundError _ => "NOT_FOUND"
  | AppError.conflictError _ => "CONFLICT"
  | AppError.internalError _ => "INTERNAL_ERROR"

/-- `Error()` of internal/errors/errors.go. -/
def AppError.errorString : AppError → String
  | AppError.validationError m => "Erro de Validação: " ++ m
  | AppError.notFoundError m => "Recurso não encontrado: " ++ m
  | AppError.conflictError m => "Conflito de estado: " ++ m
  | AppError.internalError m => "Erro Interno: " ++ m

/-- Embedding of StockRepository.UpdateStockLevel (stockrepo package).
`readRow` is the result of the SELECT ... FOR UPDATE; `commitRow` is the
stored row when the INSERT / conditional UPDATE executes.  The second
component of the result is the stored row after the call: the transaction
rolls back on every failure, leaving `commitRow` in place.
If the read finds no row: a negative delta fails with a ValidationError;
otherwise the INSERT runs, and a row created concurrently in the meantime
violates the uniqueness constraint, which the Go code reports through
`NewDBError`, i.e. as an internal error.  If the read finds a row: a
negative new quantity fails with a ValidationError; otherwise the UPDATE
is guarded by `version = currentStock.Version`, and zero affected rows
yield a ConflictError. -/
def UpdateStockLevel (readRow commitRow : Option StockLevel)
    (adjustment : StockAdjustmentRequest) (newID : String) (now : Nat) :
    Except AppError StockLevel × Option StockLevel :=
  match readRow with
  | none =>
    let newQuantity := adjustment.Delta
    if newQuantity < 0 then
      (Except.error (AppError.validationError "Não é possível criar estoque com quantidade negativa."), commitRow)
    else
      match commitRow with
      | some _ =>
        (Except.error (AppError.internalError "Falha ao inserir novo nível de estoque (DB)"), commitRow)
      | none =>
        let newSl : StockLevel :=
          { ID := newID, VariantID := adjustment.VariantID, WarehouseID := adjustment.WarehouseID,
            Quantity := newQuantity, Version := 1, CreatedAt := now, UpdatedAt := now }
        (Except.ok newSl, some newSl)
  | some currentStock =>
    let newQuantity := currentStock.Quantity + adjustment.Delta
    if newQuantity < 0 then
      (Except.error (AppError.validationError "Ajuste resultaria em quantidade de estoque negativa."), commitRow)
    else
      match commitRow with
      | some stored =>
        if stored.Version = currentStock.Version then
          (Except.ok { currentStock with Quantity := newQuantity, Version := currentStock.Version + 1, UpdatedAt := now },
           some { stored with Quantity := newQuantity, Version := currentStock.Version + 1, UpdatedAt := now })
        else
          (Except.error (AppError.conflictError "O estoque foi modificado por outra operação. Tente novamente."), commitRow)
      | none =>
        (Except.error (AppError.conflictError "O estoque foi modificado por outra operação. Tente novamente."), commitRow)

/-- The error translation of Service.AdjustStock: the `errors.As` chain
checks ConflictError first, then ValidationError, and wraps everything
else in an InternalError. -/
def mapServiceError : AppError → AppError
  | AppError.conflictError m =>
    AppError.conflictError ("Falha de concorrência: " ++ AppError.errorString (AppError.conflictError m))
  | AppError.validationError m =>
    AppError.validationError ("Validação do estoque: " ++ AppError.errorString (AppError.validationError m))
  | _ => AppError.internalError "Falha interna ao ajustar estoque."

/-- Embedding of Service.AdjustStock
(internal/service/stockservice/service.go).  A zero delta is rejected
before the engine thunk is forced; otherwise the engine runs and its
error, if any, is translated by `mapServiceError`.  The second component
is the stored row after the call (`st` when the engine was never run). -/
def AdjustStock (engine : Unit → Except AppError StockLevel × Option StockLevel)
    (st : Option StockLevel) (adjustment : StockAdjustmentRequest) :
    Except AppError StockLevel × Option StockLevel :=
  if adjustment.Delta = 0 then
    (Except.error (AppError.validationError "O ajuste de estoque (delta) não pode ser zero."), st)
  else
    match engine () with
    | (Except.ok stockLevel, stAfter) => (Except.ok stockLevel, stAfter)
    | (Except.error err, stAfter) => (Except.error (mapServiceError err), stAfter)

/-- A full sequential AdjustStock call: the engine reads and writes the
same stored state (no concurrent transaction interferes), which is what
the FOR UPDATE row lock enforces. -/
def adjustStockSeq (st : Option StockLevel) (adjustment : StockAdjustmentRequest)
    (newID : String) (now : Nat) : Except AppError StockLevel × Option StockLevel :=
  AdjustStock (fun _ => UpdateStockLevel st st adjustment newID now) st adjustment

/-- Whether a call outcome is a success. -/
def isOkE : Except AppError StockLevel → Bool
  | Except.ok _ => true
  | Except.error _ => false

/-- Whether a call outcome is a ValidationError. -/
def isValidationE : Except AppError StockLevel → Bool
  | Except.error (AppError.validationError _) => true
  | _ => false

/-- Whether a call outcome is a ConflictError. -/
def isConflictE : Except AppError StockLevel → Bool
  | Except.error (AppError.conflictError _) => true
  | _ => false

/-- Whether a call outcome is an InternalError. -/
def isInternalE : Except AppError StockLevel → Bool
  | Except.error (AppError.internalError _) => true
  | _ => false

/-- The returned StockLevel of a successful outcome (junk row otherwise). -/
def okRow : Except AppError StockLevel → StockLevel
  | Except.ok sl => sl
  | Except.error _ => { ID := "", VariantID := "", WarehouseID := "", Quantity := 0, Version := 0, CreatedAt := 0, UpdatedAt := 0 }

/-- The version of the stored row, 0 when no row exists. -/
def storeVersion : Option StockLevel → Int
  | none => 0
  | some r => r.Version

/-- The quantity of the stored row, 0 when no row exists. -/
def storeQuantity : Option StockLevel → Int
  | none => 0
  | some r => r.Quantity

/-- The row stored for the pair (junk row when none is stored). -/
def theRow : Option StockLevel → StockLevel
  | some r => r
  | none => { ID := "", VariantID := "", WarehouseID := "", Quantity := 0, Version := 0, CreatedAt := 0, UpdatedAt := 0 }

/-- The error category of a failed outcome, "OK" on success. -/
def errCategory : Except AppError StockLevel → String
  | Except.error e => AppError.category e
  | Except.ok _ => "OK"

/-- Helper: the update path of the engine when the read found a row, the new
quantity is non-negative, and the stored version still matches the version
the read observed (the conditional update affects one row). -/
theorem updateStockLevel_matched_eq (row stored : StockLevel)
    (adjustment : StockAdjustmentRequest) (newID : String) (now : Nat)
    (hq : 0 ≤ row.Quantity + adjustment.Delta)
    (hv : stored.Version = row.Version) :
    UpdateStockLevel (some row) (some stored) adjustment newID now =
      (Except.ok { row with Quantity := row.Quantity + adjustment.Delta, Version := row.Version + 1, UpdatedAt := now },
       some { stored with Quantity := row.Quantity + adjustment.Delta, Version := row.Version + 1, UpdatedAt := now }) := by
  simp [UpdateStockLevel, hv, not_lt.mpr hq]

/-- Claim C1: on an existing row with quantity q and version v, when
q + delta is non-negative and the version-guarded conditional update
succeeds (the stored version still equals the version observed at the
read), the call returns a StockLevel with Quantity = q + delta and
Version = v + 1, and the stored row is updated to exactly those values. -/
theorem updateStockLevel_existing_success (row stored : StockLevel)
    (adjustment : StockAdjustmentRequest) (newID : String) (now : Nat)
    (hq : 0 ≤ row.Quantity + adjustment.Delta)
    (hv : stored.Version = row.Version) :
    UpdateStockLevel (some row) (some stored) adjustment newID now =
      (Except.ok { row with Quantity := row.Quantity + adjustment.Delta, Version := row.Version + 1, UpdatedAt := now },
       some { stored with Quantity := row.Quantity + adjustment.Delta, Version := row.Version + 1, UpdatedAt := now }) :=
  updateStockLevel_matched_eq row stored adjustment newID now hq hv

/-- Witness for claim C1 at a concrete row, stored row and delta. -/
theorem updateStockLevel_existing_success_witness :
    UpdateStockLevel (some ⟨"i", "v", "w", 4, 2, 0, 0⟩) (some ⟨"i", "v", "w", 4, 2, 0, 0⟩) ⟨"v", "w", -3⟩ "n" 7 =
      (Except.ok ⟨"i", "v", "w", 1, 3, 0, 7⟩, some ⟨"i", "v", "w", 1, 3, 0, 7⟩) := by
  simpa using updateStockLevel_existing_success ⟨"i", "v", "w", 4, 2, 0, 0⟩ ⟨"i", "v", "w", 4, 2, 0, 0⟩ ⟨"v", "w", -3⟩ "n" 7 (by decide) rfl

/-- Claim C5: an engine call on a pair with no row (and no concurrent
insert): a negative delta fails with a ValidationError and creates no row;
otherwise a new row with quantity = delta and version = 1 is inserted and
returned. -/
theorem updateStockLevel_first_adjustment (adjustment : StockAdjustmentRequest)
    (newID : String) (now : Nat) :
    UpdateStockLevel none none adjustment newID now =
      if adjustment.Delta < 0 then
        (Except.error (AppError.validationError "Não é possível criar estoque com quantidade negativa."), none)
      else
        (Except.ok ⟨newID, adjustment.VariantID, adjustment.WarehouseID, adjustment.Delta, 1, now, now⟩,
         some ⟨newID, adjustment.VariantID, adjustment.WarehouseID, adjustment.Delta, 1, now, now⟩) := rfl

/-- Claim C7: a zero delta is rejected by the Service with a
ValidationError and the stored state is untouched; the statement holds for
every engine, so the engine (the repository's UpdateStockLevel, with its
transaction) is never invoked. -/
theorem adjustStock_zero_delta_rejected
    (engine : Unit → Except AppError StockLevel × Option StockLevel)
    (st : Option StockLevel) (adjustment : StockAdjustmentRequest)
    (h : adjustment.Delta = 0) :
    AdjustStock engine st adjustment =
      (Except.error (AppError.validationError "O ajuste de estoque (delta) não pode ser zero."), st) := by
  simp [AdjustStock, h]

/-- Witness for claim C7 at a concrete engine, state and request. -/
theorem adjustStock_zero_delta_rejected_witness :
    AdjustStock (fun _ => (Except.ok ⟨"x", "v", "w", 9, 9, 9, 9⟩, none)) none ⟨"v", "w", 0⟩ =
      (Except.error (AppError.validationError "O ajuste de estoque (delta) não pode ser zero."), none) :=
  adjustStock_zero_delta_rejected (fun _ => (Except.ok ⟨"x", "v", "w", 9, 9, 9, 9⟩, none)) none ⟨"v", "w", 0⟩ rfl

/-- Counterexample to claim C2: when no row was read but a concurrent
transaction already created the row (so the first-adjustment insert hits
the uniqueness constraint), the concrete call AdjustStock(V2, W2, +10)
does not return a ConflictError: it returns an InternalError, because the
repository wraps every insert failure in NewDBError. -/
theorem adjustStock_insert_race_not_conflict :
    isConflictE ((AdjustStock (fun _ => UpdateStockLevel none (some ⟨"w0", "V2", "W2", 10, 1, 0, 0⟩) ⟨"V2", "W2", 10⟩ "l0" 1) (some ⟨"w0", "V2", "W2", 10, 1, 0, 0⟩) ⟨"V2", "W2", 10⟩).1) = false ∧
    isInternalE ((AdjustStock (fun _ => UpdateStockLevel none (some ⟨"w0", "V2", "W2", 10, 1, 0, 0⟩) ⟨"V2", "W2", 10⟩ "l0" 1) (some ⟨"w0", "V2", "W2", 10, 1, 0, 0⟩) ⟨"V2", "W2", 10⟩).1) = true := by
  decide

/-- Claim C2 amended: when the read finds no row and a concurrent
transaction already created the row, the insert violates the uniqueness
constraint and AdjustStock reports the failure as an InternalError (the
repository wraps it in NewDBError), not as a ConflictError; the winner's
row is left in place. -/
theorem adjustStock_insert_race_internal (winner : StockLevel)
    (adjustment : StockAdjustmentRequest) (newID : String) (now : Nat)
    (h0 : adjustment.Delta ≠ 0) (hpos : 0 ≤ adjustment.Delta) :
    AdjustStock (fun _ => UpdateStockLevel none (some winner) adjustment newID now) (some winner) adjustment =
      (Except.error (AppError.internalError "Falha interna ao ajustar estoque."), some winner) := by
  simp [AdjustStock, h0, UpdateStockLevel, not_lt.mpr hpos, mapServiceError]

/-- Witness for the amended claim C2 at a concrete winner row and delta. -/
theorem adjustStock_insert_race_internal_witness :
    AdjustStock (fun _ => UpdateStockLevel none (some ⟨"w0", "V2", "W2", 10, 1, 0, 0⟩) ⟨"V2", "W2", 10⟩ "l0" 1) (some ⟨"w0", "V2", "W2", 10, 1, 0, 0⟩) ⟨"V2", "W2", 10⟩ =
      (Except.error (AppError.internalError "Falha interna ao ajustar estoque."), some ⟨"w0", "V2", "W2", 10, 1, 0, 0⟩) :=
  adjustStock_insert_race_internal ⟨"w0", "V2", "W2", 10, 1, 0, 0⟩ ⟨"V2", "W2", 10⟩ "l0" 1 (by decide) (by decide)

/-- Claim C3: on an existing row, a delta that would drive the quantity
negative makes the AdjustStock call fail with a ValidationError and leaves
the stored row (quantity, version, updatedAt) exactly as before. -/
theorem adjustStock_negative_result_validation (row : StockLevel)
    (adjustment : StockAdjustmentRequest) (newID : String) (now : Nat)
    (hq : row.Quantity + adjustment.Delta < 0) :
    isValidationE (adjustStockSeq (some row) adjustment newID now).1 = true ∧
      (adjustStockSeq (some row) adjustment newID now).2 = some row := by
  by_cases h0 : adjustment.Delta = 0
  · simp [adjustStockSeq, AdjustStock, h0, isValidationE]
  · simp [adjustStockSeq, AdjustStock, h0, UpdateStockLevel, hq, mapServiceError, isValidationE]

/-- Witness for claim C3 at a concrete row and delta. -/
theorem adjustStock_negative_result_validation_witness :
    isValidationE (adjustStockSeq (some ⟨"i", "v", "w", 0, 2, 0, 0⟩) ⟨"v", "w", -1⟩ "n" 3).1 = true ∧
      (adjustStockSeq (some ⟨"i", "v", "w", 0, 2, 0, 0⟩) ⟨"v", "w", -1⟩ "n" 3).2 = some ⟨"i", "v", "w", 0, 2, 0, 0⟩ :=
  adjustStock_negative_result_validation ⟨"i", "v", "w", 0, 2, 0, 0⟩ ⟨"v", "w", -1⟩ "n" 3 (by decide)

/-- Claim C6: on an existing row, when the version-guarded conditional
update affects zero rows (no stored row carries the version observed at
the read any more), the transaction rolls back (the stored state is
untouched) and the Service returns a ConflictError: the CONFLICT category
of the engine error is preserved through the Service layer. -/
theorem adjustStock_version_conflict (currentStock : StockLevel)
    (commitRow : Option StockLevel) (adjustment : StockAdjustmentRequest)
    (newID : String) (now : Nat) (h0 : adjustment.Delta ≠ 0)
    (hq : 0 ≤ currentStock.Quantity + adjustment.Delta)
    (hv : ∀ s, commitRow = some s → s.Version ≠ currentStock.Version) :
    errCategory (AdjustStock (fun _ => UpdateStockLevel (some currentStock) commitRow adjustment newID now) commitRow adjustment).1 = "CONFLICT" ∧
      (AdjustStock (fun _ => UpdateStockLevel (some currentStock) commitRow adjustment newID now) commitRow adjustment).2 = commitRow := by
  cases commitRow with
  | none =>
    simp [AdjustStock, h0, UpdateStockLevel, not_lt.mpr hq, mapServiceError,
      errCategory, AppError.category]
  | some s =>
    simp [AdjustStock, h0, UpdateStockLevel, not_lt.mpr hq, mapServiceError,
      errCategory, AppError.category, hv s rfl]

/-- Witness for claim C6: the read observed version 1 but the stored row
has version 2. -/
theorem adjustStock_version_conflict_witness :
    errCategory (AdjustStock (fun _ => UpdateStockLevel (some ⟨"i", "v", "w", 3, 1, 0, 0⟩) (some ⟨"i", "v", "w", 7, 2, 0, 5⟩) ⟨"v", "w", 1⟩ "n" 9) (some ⟨"i", "v", "w", 7, 2, 0, 5⟩) ⟨"v", "w", 1⟩).1 = "CONFLICT" ∧
      (AdjustStock (fun _ => UpdateStockLevel (some ⟨"i", "v", "w", 3, 1, 0, 0⟩) (some ⟨"i", "v", "w", 7, 2, 0, 5⟩) ⟨"v", "w", 1⟩ "n" 9) (some ⟨"i", "v", "w", 7, 2, 0, 5⟩) ⟨"v", "w", 1⟩).2 = some ⟨"i", "v", "w", 7, 2, 0, 5⟩ :=
  adjustStock_version_conflict ⟨"i", "v", "w", 3, 1, 0, 0⟩ (some ⟨"i", "v", "w", 7, 2, 0, 5⟩) ⟨"v", "w", 1⟩ "n" 9 (by decide) (by decide)
    (by intro s hs; injection hs with h; subst h; decide)

/-- Claim C9: the engine alone does not reject a zero delta.  Called with
delta = 0 on a pair with no row it inserts and returns quantity 0 and
version 1.  On an existing (non-negative) row it commits an update that
keeps the quantity and increments the version by 1.  The zero-delta guard
exists only in the Service layer, which rejects delta = 0 for every
engine. -/
theorem updateStockLevel_zero_delta (v w newID : String) (now : Nat)
    (r : StockLevel) (hr : 0 ≤ r.Quantity) :
    UpdateStockLevel none none ⟨v, w, 0⟩ newID now =
      (Except.ok ⟨newID, v, w, 0, 1, now, now⟩, some ⟨newID, v, w, 0, 1, now, now⟩) ∧
    UpdateStockLevel (some r) (some r) ⟨v, w, 0⟩ newID now =
      (Except.ok { r with Version := r.Version + 1, UpdatedAt := now },
       some { r with Version := r.Version + 1, UpdatedAt := now }) ∧
    (∀ engine st, AdjustStock engine st ⟨v, w, 0⟩ =
      (Except.error (AppError.validationError "O ajuste de estoque (delta) não pode ser zero."), st)) := by
  refine ⟨rfl, ?_, ?_⟩
  · have h := updateStockLevel_matched_eq r r ⟨v, w, 0⟩ newID now (by simpa using hr) rfl
    simpa using h
  · intro engine st
    simp [AdjustStock]

/-- Witness for claim C9 at a concrete row. -/
theorem updateStockLevel_zero_delta_witness :
    UpdateStockLevel none none ⟨"v", "w", 0⟩ "n" 4 =
      (Except.ok ⟨"n", "v", "w", 0, 1, 4, 4⟩, some ⟨"n", "v", "w", 0, 1, 4, 4⟩) ∧
    UpdateStockLevel (some ⟨"i", "v", "w", 6, 3, 1, 2⟩) (some ⟨"i", "v", "w", 6, 3, 1, 2⟩) ⟨"v", "w", 0⟩ "n" 4 =
      (Except.ok ⟨"i", "v", "w", 6, 4, 1, 4⟩, some ⟨"i", "v", "w", 6, 4, 1, 4⟩) ∧
    (∀ engine st, AdjustStock engine st ⟨"v", "w", 0⟩ =
      (Except.error (AppError.validationError "O ajuste de estoque (delta) não pode ser zero."), st)) :=
  updateStockLevel_zero_delta "v" "w" "n" 4 ⟨"i", "v", "w", 6, 3, 1, 2⟩ (by decide)

/-- Claim C10: frame of a successful update of an existing row: the
fields ID, VariantID, WarehouseID and CreatedAt of both the returned and
the stored row keep the values read under the lock; only Quantity,
Version and UpdatedAt change, and they change to the expected values. -/
theorem updateStockLevel_frame (row : StockLevel)
    (adjustment : StockAdjustmentRequest) (newID : String) (now : Nat)
    (hq : 0 ≤ row.Quantity + adjustment.Delta) :
    isOkE (UpdateStockLevel (some row) (some row) adjustment newID now).1 = true ∧
    (okRow (UpdateStockLevel (some row) (some row) adjustment newID now).1).ID = row.ID ∧
    (okRow (UpdateStockLevel (some row) (some row) adjustment newID now).1).VariantID = row.VariantID ∧
    (okRow (UpdateStockLevel (some row) (some row) adjustment newID now).1).WarehouseID = row.WarehouseID ∧
    (okRow (UpdateStockLevel (some row) (some row) adjustment newID now).1).CreatedAt = row.CreatedAt ∧
    (theRow (UpdateStockLevel (some row) (some row) adjustment newID now).2).ID = row.ID ∧
    (theRow (UpdateStockLevel (some row) (some row) adjustment newID now).2).VariantID = row.VariantID ∧
    (theRow (UpdateStockLevel (some row) (some row) adjustment newID now).2).WarehouseID = row.WarehouseID ∧
    (theRow (UpdateStockLevel (some row) (some row) adjustment newID now).2).CreatedAt = row.CreatedAt ∧
    (okRow (UpdateStockLevel (some row) (some row) adjustment newID now).1).Quantity = row.Quantity + adjustment.Delta ∧
    (okRow (UpdateStockLevel (some row) (some row) adjustment newID now).1).Version = row.Version + 1 ∧
    (okRow (UpdateStockLevel (some row) (some row) adjustment newID now).1).UpdatedAt = now ∧
    (theRow (UpdateStockLevel (some row) (some row) adjustment newID now).2) = okRow (UpdateStockLevel (some row) (some row) adjustment newID now).1 := by
  rw [updateStockLevel_matched_eq row row adjustment newID now hq rfl]
  simp [isOkE, okRow, theRow]

/-- Witness for claim C10 at a concrete row and delta. -/
theorem updateStockLevel_frame_witness :
    isOkE (UpdateStockLevel (some ⟨"i", "v", "w", 2, 5, 3, 3⟩) (some ⟨"i", "v", "w", 2, 5, 3, 3⟩) ⟨"v", "w", 8⟩ "n" 6).1 = true ∧
    (okRow (UpdateStockLevel (some ⟨"i", "v", "w", 2, 5, 3, 3⟩) (some ⟨"i", "v", "w", 2, 5, 3, 3⟩) ⟨"v", "w", 8⟩ "n" 6).1).ID = "i" ∧
    (okRow (UpdateStockLevel (some ⟨"i", "v", "w", 2, 5, 3, 3⟩) (some ⟨"i", "v", "w", 2, 5, 3, 3⟩) ⟨"v", "w", 8⟩ "n" 6).1).VariantID = "v" ∧
    (okRow (UpdateStockLevel (some ⟨"i", "v", "w", 2, 5, 3, 3⟩) (some ⟨"i", "v", "w", 2, 5, 3, 3⟩) ⟨"v", "w", 8⟩ "n" 6).1).WarehouseID = "w" ∧
    (okRow (UpdateStockLevel (some ⟨"i", "v", "w", 2, 5, 3, 3⟩) (some ⟨"i", "v", "w", 2, 5, 3, 3⟩) ⟨"v", "w", 8⟩ "n" 6).1).CreatedAt = 3 ∧
    (theRow (UpdateStockLevel (some ⟨"i", "v", "w", 2, 5, 3, 3⟩) (some ⟨"i", "v", "w", 2, 5, 3, 3⟩) ⟨"v", "w", 8⟩ "n" 6).2).ID = "i" ∧
    (theRow (UpdateStockLevel (some ⟨"i", "v", "w", 2, 5, 3, 3⟩) (some ⟨"i", "v", "w", 2, 5, 3, 3⟩) ⟨"v", "w", 8⟩ "n" 6).2).VariantID = "v" ∧
    (theRow (UpdateStockLevel (some ⟨"i", "v", "w", 2, 5, 3, 3⟩) (some ⟨"i", "v", "w", 2, 5, 3, 3⟩) ⟨"v", "w", 8⟩ "n" 6).2).WarehouseID = "w" ∧
    (theRow (UpdateStockLevel (some ⟨"i", "v", "w", 2, 5, 3, 3⟩) (some ⟨"i", "v", "w", 2, 5, 3, 3⟩) ⟨"v", "w", 8⟩ "n" 6).2).CreatedAt = 3 ∧
    (okRow (UpdateStockLevel (some ⟨"i", "v", "w", 2, 5, 3, 3⟩) (some ⟨"i", "v", "w", 2, 5, 3, 3⟩) ⟨"v", "w", 8⟩ "n" 6).1).Quantity = 2 + 8 ∧
    (okRow (UpdateStockLevel (some ⟨"i", "v", "w", 2, 5, 3, 3⟩) (some ⟨"i", "v", "w", 2, 5, 3, 3⟩) ⟨"v", "w", 8⟩ "n" 6).1).Version = 5 + 1 ∧
    (okRow (UpdateStockLevel (some ⟨"i", "v", "w", 2, 5, 3, 3⟩) (some ⟨"i", "v", "w", 2, 5, 3, 3⟩) ⟨"v", "w", 8⟩ "n" 6).1).UpdatedAt = 6 ∧
    (theRow (UpdateStockLevel (some ⟨"i", "v", "w", 2, 5, 3, 3⟩) (some ⟨"i", "v", "w", 2, 5, 3, 3⟩) ⟨"v", "w", 8⟩ "n" 6).2) = okRow (UpdateStockLevel (some ⟨"i", "v", "w", 2, 5, 3, 3⟩) (some ⟨"i", "v", "w", 2, 5, 3, 3⟩) ⟨"v", "w", 8⟩ "n" 6).1 :=
  updateStockLevel_frame ⟨"i", "v", "w", 2, 5, 3, 3⟩ ⟨"v", "w", 8⟩ "n" 6 (by decide)

/-- First call of Scenario A: AdjustStock(V1, W1, +5) on an empty pair. -/
def scenarioA1 : Except AppError StockLevel × Option StockLevel :=
  adjustStockSeq none ⟨"V1", "W1", 5⟩ "id1" 1

/-- Second call of Scenario A: AdjustStock(V1, W1, -5). -/
def scenarioA2 : Except AppError StockLevel × Option StockLevel :=
  adjustStockSeq scenarioA1.2 ⟨"V1", "W1", -5⟩ "id2" 2

/-- Third call of Scenario A: AdjustStock(V1, W1, -1). -/
def scenarioA3 : Except AppError StockLevel × Option StockLevel :=
  adjustStockSeq scenarioA2.2 ⟨"V1", "W1", -1⟩ "id3" 3

/-- Claim C8 (Scenario A): starting from no row for (V1, W1), the trace
+5; -5; -1 yields quantity 5 version 1, then quantity 0 version 2, then a
ValidationError with the stored state still at quantity 0 version 2. -/
theorem adjustStock_scenarioA :
    scenarioA1.1 = Except.ok ⟨"id1", "V1", "W1", 5, 1, 1, 1⟩ ∧
    scenarioA2.1 = Except.ok ⟨"id1", "V1", "W1", 0, 2, 1, 2⟩ ∧
    isValidationE scenarioA3.1 = true ∧
    scenarioA3.2 = some ⟨"id1", "V1", "W1", 0, 2, 1, 2⟩ :=
  ⟨rfl, rfl, rfl, rfl⟩

/-- How the FOR UPDATE read of one call in a trace relates to the stored
state at that call: `fresh` reads the current row (the uninterfered case,
which the row lock enforces); `stale r` models a call whose transaction
read `r` before competing transactions committed, so its conditional
write runs against a newer stored state.  `stale none` against an
existing row is the loser of the first-adjustment insert race. -/
inductive ReadMode where
  | fresh
  | stale (r : Option StockLevel)
  deriving DecidableEq, Repr

/-- One AdjustStock call of a trace: the delta, what its FOR UPDATE read
observed, the generated row id and the call time. -/
structure Event where
  Delta : Int
  mode : ReadMode
  newID : String
  now : Nat
  deriving DecidableEq, Repr

/-- The row a call's FOR UPDATE read observed. -/
def readOf (st : Option StockLevel) : ReadMode → Option StockLevel
  | ReadMode.fresh => st
  | ReadMode.stale r => r

/-- Run one AdjustStock call of a trace for the pair (v, w) against the
current stored state. -/
def runEvent (v w : String) (st : Option StockLevel) (e : Event) :
    Except AppError StockLevel × Option StockLevel :=
  AdjustStock (fun _ => UpdateStockLevel (readOf st e.mode) st ⟨v, w, e.Delta⟩ e.newID e.now) st ⟨v, w, e.Delta⟩

/-- The stored state after a trace of AdjustStock calls. -/
def finalStore (v w : String) (st : Option StockLevel) : List Event → Option StockLevel
  | [] => st
  | e :: es => finalStore v w (runEvent v w st e).2 es

/-- The number of calls of a trace that succeed (as an integer, to be
compared with the stored version). -/
def okCount (v w : String) (st : Option StockLevel) : List Event → Int
  | [] => 0
  | e :: es => (if isOkE (runEvent v w st e).1 then 1 else 0) + okCount v w (runEvent v w st e).2 es

/-- The sum of the deltas of the calls of a trace that succeed. -/
def okSum (v w : String) (st : Option StockLevel) : List Event → Int
  | [] => 0
  | e :: es => (if isOkE (runEvent v w st e).1 then e.Delta else 0) + okSum v w (runEvent v w st e).2 es

/-- A stale read is genuine when the row it observed does not carry the
version the stored row carries now: committed versions of a pair are
never reused, so a transaction that read an older committed state
observed a different version. -/
def staleOk (st : Option StockLevel) : ReadMode → Bool
  | ReadMode.fresh => true
  | ReadMode.stale none => true
  | ReadMode.stale (some r) =>
    match st with
    | none => true
    | some cur => r.Version != cur.Version

/-- Every stale read of the trace is genuine with respect to the stored
state at its call. -/
def validFrom (v w : String) (st : Option StockLevel) : List Event → Bool
  | [] => true
  | e :: es => staleOk st e.mode && validFrom v w (runEvent v w st e).2 es

/-- Helper: one trace call either succeeds, incrementing the stored
version by 1 and adding its delta to the stored quantity, or fails
leaving the stored state untouched. -/
theorem runEvent_step (v w : String) (st : Option StockLevel) (e : Event)
    (h : staleOk st e.mode = true) :
    (isOkE (runEvent v w st e).1 = true ∧
        storeVersion (runEvent v w st e).2 = storeVersion st + 1 ∧
        storeQuantity (runEvent v w st e).2 = storeQuantity st + e.Delta) ∨
      (isOkE (runEvent v w st e).1 = false ∧ (runEvent v w st e).2 = st) := by
  by_cases h0 : e.Delta = 0
  · right
    simp [runEvent, AdjustStock, h0, isOkE]
  · cases hm : e.mode with
    | fresh =>
      cases st with
      | none =>
        by_cases hneg : e.Delta < 0
        · right
          simp [runEvent, AdjustStock, UpdateStockLevel, readOf, hm, h0, hneg, isOkE, mapServiceError]
        · left
          simp [runEvent, AdjustStock, UpdateStockLevel, readOf, hm, h0, hneg, isOkE,
            storeVersion, storeQuantity]
      | some cur =>
        by_cases hneg : cur.Quantity + e.Delta < 0
        · right
          simp [runEvent, AdjustStock, UpdateStockLevel, readOf, hm, h0, hneg, isOkE, mapServiceError]
        · left
          simp [runEvent, AdjustStock, UpdateStockLevel, readOf, hm, h0, hneg, isOkE,
            storeVersion, storeQuantity]
    | stale r =>
      cases r with
      | none =>
        by_cases hneg : e.Delta < 0
        · right
          simp [runEvent, AdjustStock, UpdateStockLevel, readOf, hm, h0, hneg, isOkE, mapServiceError]
        · cases st with
          | none =>
            left
            simp [runEvent, AdjustStock, UpdateStockLevel, readOf, hm, h0, hneg, isOkE,
              storeVersion, storeQuantity]
          | some cur =>
            right
            simp [runEvent, AdjustStock, UpdateStockLevel, readOf, hm, h0, hneg, isOkE, mapServiceError]
      | some rr =>
        cases st with
        | none =>
          by_cases hneg : rr.Quantity + e.Delta < 0
          · right
            simp [runEvent, AdjustStock, UpdateStockLevel, readOf, hm, h0, hneg, isOkE, mapServiceError]
          · right
            simp [runEvent, AdjustStock, UpdateStockLevel, readOf, hm, h0, hneg, isOkE, mapServiceError]
        | some cur =>
          have hv : cur.Version ≠ rr.Version := by
            rw [hm] at h
            simp [staleOk] at h
            exact fun hc => h hc.symm
          by_cases hneg : rr.Quantity + e.Delta < 0
          · right
            simp [runEvent, AdjustStock, UpdateStockLevel, readOf, hm, h0, hneg, isOkE, mapServiceError]
          · right
            simp [runEvent, AdjustStock, UpdateStockLevel, readOf, hm, h0, hneg, hv, isOkE, mapServiceError]

/-- Helper: the accounting invariant of a trace from any starting state:
the stored version grows by the number of successful calls and the stored
quantity by the sum of their deltas. -/
theorem trace_invariant (v w : String) (es : List Event) :
    ∀ st : Option StockLevel, validFrom v w st es = true →
      storeVersion (finalStore v w st es) = storeVersion st + okCount v w st es ∧
      storeQuantity (finalStore v w st es) = storeQuantity st + okSum v w st es := by
  induction es with
  | nil =>
    intro st _
    simp [finalStore, okCount, okSum]
  | cons e es ih =>
    intro st hval
    rw [validFrom, Bool.and_eq_true] at hval
    obtain ⟨h1, h2⟩ := hval
    obtain ⟨r1, r2⟩ := ih (runEvent v w st e).2 h2
    cases runEvent_step v w st e h1 with
    | inl hok =>
      obtain ⟨hb, hv, hq⟩ := hok
      constructor
      · rw [finalStore, okCount, if_pos hb, r1, hv]
        ring
      · rw [finalStore, okSum, if_pos hb, r2, hq]
        ring
    | inr herr =>
      obtain ⟨hb, hst⟩ := herr
      constructor
      · rw [finalStore, okCount, if_neg (by simp [hb]), r1, hst]
        ring
      · rw [finalStore, okSum, if_neg (by simp [hb]), r2, hst]
        ring

/-- Claim C4: for every trace of AdjustStock calls on one pair starting
from no row, in which every stale read is genuine (it observed a version
different from the one stored at its call), the final stored quantity
equals the sum of the deltas of exactly the calls that succeeded, and the
final stored version equals the number of calls that succeeded (0
standing for the still-absent row): rejected and conflicted calls
contribute nothing. -/
theorem adjustStock_trace_accounting (v w : String) (es : List Event)
    (h : validFrom v w none es = true) :
    storeQuantity (finalStore v w none es) = okSum v w none es ∧
    storeVersion (finalStore v w none es) = okCount v w none es := by
  obtain ⟨h1, h2⟩ := trace_invariant v w es none h
  constructor
  · simpa [storeQuantity] using h2
  · simpa [storeVersion] using h1

/-- A concrete trace for the witness of claim C4: a successful insert, an
insert-race loser, a rejected negative adjustment, a rejected zero delta,
a conflicted stale-read call, and a final successful adjustment. -/
def traceC4 : List Event :=
  [⟨5, ReadMode.fresh, "a", 1⟩,
   ⟨3, ReadMode.stale none, "b", 2⟩,
   ⟨-9, ReadMode.fresh, "c", 3⟩,
   ⟨0, ReadMode.fresh, "d", 4⟩,
   ⟨2, ReadMode.stale (some ⟨"a", "V", "W", 5, 9, 1, 1⟩), "e", 5⟩,
   ⟨-2, ReadMode.fresh, "f", 6⟩]

/-- Witness for claim C4 on the concrete trace `traceC4`. -/
theorem adjustStock_trace_accounting_witness :
    storeQuantity (finalStore "V" "W" none traceC4) = okSum "V" "W" none traceC4 ∧
    storeVersion (finalStore "V" "W" none traceC4) = okCount "V" "W" none traceC4 :=
  adjustStock_trace_accounting "V" "W" traceC4 (by decide)
